import Mathlib

/-!
Formalisation of the Express-Jobly dynamic query-construction subsystem.

The development shallowly embeds the two Job model variants
(src/unnamed/part_000 and src/unnamed/part_001), the Company model
(embedded in src/models/job.test.js), and the routes, as pure Lean
functions.  JavaScript values appearing in query-parameter objects are
modelled by the inductive type JSVal; JavaScript truthiness, strict
string equality and parseInt are modelled explicitly, because the
filter builders decide presence of a criterion by truthiness.

The relational store is modelled as lists of rows; each repository
operation that executes SQL is given the semantics of the statement it
builds (SELECT with LEFT JOIN, UPDATE ... WHERE key, INSERT,
duplicate-check SELECT), with the built query text and positional
parameter lists kept observable so that claims about the generated SQL
can be stated directly.
-/

namespace Jobly

/-- Model of a JavaScript value as it can appear in a query-parameter
object: undefined, null, boolean, (integer) number, or string.
A missing property reads as undefined. -/
inductive JSVal where
  | undef
  | null
  | bool (b : Bool)
  | num (n : Int)
  | str (s : String)
deriving DecidableEq

/-- JavaScript truthiness: undefined, null, false, 0 and the empty
string are falsy; every other modelled value is truthy. -/
def truthy : JSVal → Bool
  | .undef => false
  | .null => false
  | .bool b => b
  | .num n => n != 0
  | .str s => s != ""

/-- JavaScript string conversion, as used by template literals. -/
def jsToString : JSVal → String
  | .undef => "undefined"
  | .null => "null"
  | .bool b => if b then "true" else "false"
  | .num n => toString n
  | .str s => s

/-- Numeric value of a list of decimal digits (helper for parseIntV). -/
def digitsVal (cs : List Char) : Option Nat :=
  let ds := cs.takeWhile (fun c => c.isDigit)
  if ds.isEmpty then none
  else some (ds.foldl (fun acc c => acc * 10 + (c.toNat - 48)) 0)

/-- Model of JavaScript parseInt restricted to the shapes that occur in
this code base: a number parses to itself, a string parses to its
leading (optionally signed) decimal-digit run, and every other value
(and a string with no leading digits) yields none, standing for NaN.
A NaN comparison is false, which the callers below reproduce. -/
def parseIntV : JSVal → Option Int
  | .num n => some n
  | .str s =>
    match s.trim.toList with
    | '-' :: rest => (digitsVal rest).map (fun n => -(n : Int))
    | '+' :: rest => (digitsVal rest).map (fun n => (n : Int))
    | cs => (digitsVal cs).map (fun n => (n : Int))
  | _ => none

/-- Character-list matcher: pat is an initial segment of the second list. -/
def matchesAt : List Char → List Char → Bool
  | [], _ => true
  | _ :: _, [] => false
  | p :: ps, c :: cs => p == c && matchesAt ps cs

/-- Character-list substring search. -/
def hasSubL (pat : List Char) : List Char → Bool
  | [] => matchesAt pat []
  | c :: cs => matchesAt pat (c :: cs) || hasSubL pat cs

/-- Substring test on strings (executable, kernel-reducible). -/
def hasSub (s pat : String) : Bool := hasSubL pat.toList s.toList

/-- Abstract error kinds of the core, mapped from the JavaScript error
classes thrown by the source: invalidUpdate is the BadRequestError of
the partial-update builder on an empty field set, invalidRange is the
ExpressError(400) of the Company range pre-check, duplicate is the
BadRequestError of the create duplicate pre-checks, notFound is
NotFoundError, and referenceError models a JavaScript ReferenceError
raised by evaluating an undeclared identifier in strict mode. -/
inductive RepoError where
  | invalidUpdate
  | invalidRange
  | duplicate (msg : String)
  | notFound (msg : String)
  | referenceError (ident : String)
deriving DecidableEq

/-! ## Filter clause builders

Each builder accumulates a list of condition fragments and a parallel
list of positional parameter values exactly as the source does:
a parameter-bearing condition pushes its value and then references the
new length of the value list as its positional index. -/

/-- Query-parameter object read by both Job.findAll variants.  part_001
reads the property named equity, part_000 reads hasEquity; a property
the caller did not supply reads as undefined. -/
structure JobQuery where
  title : JSVal := .undef
  minSalary : JSVal := .undef
  equity : JSVal := .undef
  hasEquity : JSVal := .undef
deriving DecidableEq

/-- Query-parameter object read by Company.findAll. -/
structure CompanyQuery where
  nameLike : JSVal := .undef
  minEmployees : JSVal := .undef
  maxEmployees : JSVal := .undef
deriving DecidableEq

/-- Push a parameter-bearing condition: the value is appended first and
the condition references the new length of the value list, mirroring
values.push(x); conditions.push(cond + values.length). -/
def pushParam (st : List String × List JSVal) (pre : String) (v : JSVal) :
    List String × List JSVal :=
  (st.1 ++ [pre ++ toString (st.2.length + 1)], st.2 ++ [v])

/-- Push a literal condition with no parameter. -/
def pushLit (st : List String × List JSVal) (cond : String) :
    List String × List JSVal :=
  (st.1 ++ [cond], st.2)

/-- conditions.join(" AND ") -/
def joinAnd (cs : List String) : String := String.intercalate " AND " cs

/-- The conditional WHERE fragment: appended only when at least one
condition accumulated (source: if (conditions.length > 0) ...). -/
def whereOf (cs : List String) : String :=
  if cs.isEmpty then "" else " WHERE " ++ joinAnd cs

/-- A built search statement: the accumulated condition fragments, the
positional parameter values, and the final query text. -/
structure Built where
  conds : List String
  values : List JSVal
  query : String
deriving DecidableEq

/-- Condition/value accumulation of Job.findAll in src/unnamed/part_001:
title (ILIKE), minSalary (>=), and an equity condition only when the
equity parameter is truthy and strictly equal to the string literal
true. -/
def jobCVv1 (qp : JobQuery) : List String × List JSVal :=
  let s1 := if truthy qp.title then
      pushParam ([], []) "title ILIKE $" (.str ("%" ++ jsToString qp.title ++ "%"))
    else ([], [])
  let s2 := if truthy qp.minSalary then pushParam s1 "salary >= $" qp.minSalary else s1
  if truthy qp.equity && (qp.equity == JSVal.str "true") then pushLit s2 "equity > 0" else s2

def jobBaseV1 : String :=
  "SELECT id, title, salary, equity, company_handle FROM jobs"

/-- Job.findAll of src/unnamed/part_001. -/
def jobFindAllV1 (qp : JobQuery) : Built :=
  { conds := (jobCVv1 qp).1
    values := (jobCVv1 qp).2
    query := jobBaseV1 ++ whereOf (jobCVv1 qp).1 ++ " ORDER BY title" }

/-- Condition/value accumulation of Job.findAll in src/unnamed/part_000:
title and minSalary as in part_001; the hasEquity parameter is a
three-way branch whose else-arm (hasEquity falsy, in particular absent)
also pushes the literal condition equity = 0. -/
def jobCVv0 (qp : JobQuery) : List String × List JSVal :=
  let s1 := if truthy qp.title then
      pushParam ([], []) "title ILIKE $" (.str ("%" ++ jsToString qp.title ++ "%"))
    else ([], [])
  let s2 := if truthy qp.minSalary then pushParam s1 "salary >= $" qp.minSalary else s1
  if truthy qp.hasEquity then
    if qp.hasEquity == JSVal.str "true" then pushLit s2 "equity > 0"
    else if qp.hasEquity == JSVal.str "false" then pushLit s2 "equity = 0"
    else s2
  else pushLit s2 "equity = 0"

def jobBaseV0 : String :=
  "SELECT id, title, salary, equity, company_handle\n           FROM jobs"

/-- Job.findAll of src/unnamed/part_000. -/
def jobFindAllV0 (qp : JobQuery) : Built :=
  { conds := (jobCVv0 qp).1
    values := (jobCVv0 qp).2
    query := jobBaseV0 ++ whereOf (jobCVv0 qp).1 ++ " ORDER BY title" }

/-- Condition/value accumulation of Company.findAll: nameLike (ILIKE),
minEmployees (>=), maxEmployees (<=). -/
def companyCV (qp : CompanyQuery) : List String × List JSVal :=
  let s1 := if truthy qp.nameLike then
      pushParam ([], []) "name ILIKE $" (.str ("%" ++ jsToString qp.nameLike ++ "%"))
    else ([], [])
  let s2 := if truthy qp.minEmployees then pushParam s1 "num_employees >= $" qp.minEmployees else s1
  if truthy qp.maxEmployees then pushParam s2 "num_employees <= $" qp.maxEmployees else s2

def companyBase : String :=
  "SELECT handle,\n                  name,\n                  description,\n                  num_employees AS \"numEmployees\",\n                  logo_url AS \"logoUrl\"\n           FROM companies"

/-- The statement Company.findAll builds once the range pre-check has
passed. -/
def companyBuild (qp : CompanyQuery) : Built :=
  { conds := (companyCV qp).1
    values := (companyCV qp).2
    query := companyBase ++ whereOf (companyCV qp).1 ++ " ORDER BY name" }

/-- The range pre-check guard of Company.findAll: it fires only when
both bounds are truthy and parseInt of the one is greater than or equal
to parseInt of the other (a NaN comparison is false). -/
def rangeGuard (qp : CompanyQuery) : Bool :=
  truthy qp.minEmployees && truthy qp.maxEmployees &&
    (match parseIntV qp.minEmployees, parseIntV qp.maxEmployees with
     | some a, some b => decide (a ≥ b)
     | _, _ => false)

/-- Company.findAll: throws the range error before building any
condition, otherwise builds and executes the search statement. -/
def companyFindAll (qp : CompanyQuery) : Except RepoError Built :=
  if rangeGuard qp then .error .invalidRange else .ok (companyBuild qp)

/-- The statements Company.findAll issues to the store: none on the
range-error path (the throw precedes the single db.query call), and
exactly the built statement otherwise. -/
def companyFindAllStmts (qp : CompanyQuery) : List (String × List JSVal) :=
  match companyFindAll qp with
  | .error _ => []
  | .ok b => [(b.query, b.values)]

/-! ## Store model

Rows keep the JavaScript values handed to the store at insert or
update time; key columns (Company.handle, Job.id, Job.company_handle)
are kept at their schema types. -/

structure CompanyRow where
  handle : String
  name : JSVal
  description : JSVal
  num_employees : JSVal
  logo_url : JSVal
deriving DecidableEq

structure JobRow where
  id : Int
  title : JSVal
  salary : JSVal
  equity : JSVal
  company_handle : String
deriving DecidableEq

/-- The relational store: the two tables plus the sequence that
generates surrogate Job ids. -/
structure DB where
  companies : List CompanyRow
  jobs : List JobRow
  nextId : Int
deriving DecidableEq

/-- Comparison of the positional id parameter against the integer id
column, modelling the cast the store applies to the parameter. -/
def idMatches (key : JSVal) (i : Int) : Bool := parseIntV key == some i

/-! ## create -/

/-- Job.create of src/unnamed/part_001: a duplicate pre-check SELECT on
the full tuple precedes the INSERT; on a match the BadRequestError is
thrown and no insert happens. -/
def jobCreateV1 (db : DB) (title salary equity : JSVal) (company_handle : String) :
    DB × Except RepoError JobRow :=
  let dup := db.jobs.filter (fun j =>
    j.title == title && j.salary == salary && j.equity == equity &&
      j.company_handle == company_handle)
  if dup.length > 0 then
    (db, .error (.duplicate "Duplicate job posting for this company."))
  else
    let row : JobRow := ⟨db.nextId, title, salary, equity, company_handle⟩
    ({ db with jobs := db.jobs ++ [row], nextId := db.nextId + 1 }, .ok row)

/-- Job.create of src/unnamed/part_000: no duplicate pre-check, the
INSERT always runs. -/
def jobCreateV0 (db : DB) (title salary equity : JSVal) (company_handle : String) :
    DB × Except RepoError JobRow :=
  let row : JobRow := ⟨db.nextId, title, salary, equity, company_handle⟩
  ({ db with jobs := db.jobs ++ [row], nextId := db.nextId + 1 }, .ok row)

/-- Company.create: the duplicate pre-check SELECT is on the handle
alone (the natural key); on a match the BadRequestError is thrown and
no insert happens. -/
def companyCreate (db : DB) (handle : String)
    (name description numEmployees logoUrl : JSVal) :
    DB × Except RepoError CompanyRow :=
  match db.companies.find? (fun r => r.handle == handle) with
  | some _ => (db, .error (.duplicate ("Duplicate company: " ++ handle)))
  | none =>
    let row : CompanyRow := ⟨handle, name, description, numEmployees, logoUrl⟩
    ({ db with companies := db.companies ++ [row] }, .ok row)

/-! ## get (with one-to-many join shaping) -/

/-- Shape of a job entry nested under a company, as pushed by
Company.get. -/
structure ShapedJob where
  id : Int
  title : JSVal
  salary : JSVal
  equity : JSVal
  companyHandle : String
deriving DecidableEq

/-- Shape of a company entry nested under a job, as pushed by the
part_001 Job.get. -/
structure ShapedCompany where
  handle : String
  name : JSVal
  description : JSVal
  numEmployees : JSVal
  logoUrl : JSVal
deriving DecidableEq

/-- Result object of Company.get. -/
structure CompanyDetail where
  handle : String
  name : JSVal
  description : JSVal
  numEmployees : JSVal
  logoUrl : JSVal
  jobs : List ShapedJob
deriving DecidableEq

/-- Result object of the part_001 Job.get. -/
structure JobDetail where
  id : Int
  title : JSVal
  salary : JSVal
  equity : JSVal
  companies : List ShapedCompany
deriving DecidableEq

/-- Row set of the LEFT JOIN issued by Company.get: every company row
matching the key, paired with each of its jobs, or with none when it
has no jobs (the join null row). -/
def companyGetRows (db : DB) (h : String) : List (CompanyRow × Option JobRow) :=
  (db.companies.filter (fun c => c.handle == h)).flatMap (fun c =>
    match db.jobs.filter (fun j => j.company_handle == c.handle) with
    | [] => [(c, none)]
    | js => js.map (fun j => (c, some j)))

/-- The forEach push of Company.get: a nested job entry is pushed only
when row.id is truthy (non-null and non-zero). -/
def pushJob (p : CompanyRow × Option JobRow) : Option ShapedJob :=
  p.2.bind (fun j =>
    if j.id != 0 then some ⟨j.id, j.title, j.salary, j.equity, j.company_handle⟩
    else none)

/-- Company.get: NotFoundError on zero joined rows, otherwise the fold
of the joined rows into one owner object with a nested jobs
collection. -/
def companyGet (db : DB) (h : String) : Except RepoError CompanyDetail :=
  match companyGetRows db h with
  | [] => .error (.notFound ("No company: " ++ h))
  | r0 :: rs =>
    .ok { handle := r0.1.handle
          name := r0.1.name
          description := r0.1.description
          numEmployees := r0.1.num_employees
          logoUrl := r0.1.logo_url
          jobs := (r0 :: rs).filterMap pushJob }

/-- Row set of the LEFT JOIN issued by the part_001 Job.get. -/
def jobGetRowsV1 (db : DB) (idv : JSVal) : List (JobRow × Option CompanyRow) :=
  (db.jobs.filter (fun j => idMatches idv j.id)).flatMap (fun j =>
    match db.companies.filter (fun c => c.handle == j.company_handle) with
    | [] => [(j, none)]
    | cs => cs.map (fun c => (j, some c)))

/-- The forEach push of the part_001 Job.get: a nested company entry is
pushed only when row.handle is truthy (non-null and non-empty). -/
def pushCompany (p : JobRow × Option CompanyRow) : Option ShapedCompany :=
  p.2.bind (fun c =>
    if c.handle != "" then some ⟨c.handle, c.name, c.description, c.num_employees, c.logo_url⟩
    else none)

/-- Job.get of src/unnamed/part_001: NotFoundError on zero joined rows,
otherwise the fold into one job object with a nested companies
collection. -/
def jobGetV1 (db : DB) (idv : JSVal) : Except RepoError JobDetail :=
  match jobGetRowsV1 db idv with
  | [] => .error (.notFound ("No job found: " ++ jsToString idv))
  | r0 :: rs =>
    .ok { id := r0.1.id
          title := r0.1.title
          salary := r0.1.salary
          equity := r0.1.equity
          companies := (r0 :: rs).filterMap pushCompany }

/-- Job.get of src/unnamed/part_000: a flat SELECT with no join; on the
success path the plain row is returned unchanged (no nested
collection).  On the zero-row path the code builds the error message by
interpolating the identifier handle, which is not declared anywhere in
that function or module scope, so under strict mode the template
literal evaluation raises a ReferenceError before any NotFoundError can
be constructed. -/
def jobGetV0 (db : DB) (idv : JSVal) : Except RepoError JobRow :=
  match db.jobs.filter (fun j => idMatches idv j.id) with
  | [] => .error (.referenceError "handle")
  | j :: _ => .ok j

/-! ## Partial-update builder (modelled from the spec) -/

/-- Modelled from the spec: the Identifier Mapper of section 4.1
(mapField inside helpers/sql, whose source is not among the provided
files).  A logical name absent from the override table maps to
itself. -/
def mapField (k : String) (overrides : List (String × String)) : String :=
  (overrides.lookup k).getD k

/-- The SET fragment and ordered value sequence produced by the
partial-update builder for a non-empty field mapping: field i (counting
from 0, in insertion order) becomes mappedColumn = $(i+1) and its value
is the i-th element of values. -/
structure SetClause where
  setCols : String
  values : List JSVal
deriving DecidableEq

/-- The successful output of the partial-update builder. -/
def mkSetClause (data : List (String × JSVal)) (overrides : List (String × String)) :
    SetClause :=
  { setCols := String.intercalate ", "
      (data.enum.map (fun p => mapField p.2.1 overrides ++ " = $" ++ toString (p.1 + 1)))
    values := data.map (fun p => p.2) }

/-- Modelled from the spec: the Partial-Update Builder sqlForPartialUpdate
of helpers/sql (section 4.2), whose source is not among the provided
files.  An empty field mapping fails with the InvalidUpdateError (the
BadRequestError "No data" of the source); otherwise each field, in
insertion order, yields one SET term with positional index starting at
1, and values is positionally parallel to the terms. -/
def sqlForPartialUpdate (data : List (String × JSVal)) (overrides : List (String × String)) :
    Except RepoError SetClause :=
  if data.isEmpty then .error .invalidUpdate else .ok (mkSetClause data overrides)

/-! ## update -/

/-- The jsToSql override table Job.update passes (all identities). -/
def jobOverrides : List (String × String) :=
  [("title", "title"), ("salary", "salary"), ("equity", "equity")]

/-- The jsToSql override table Company.update passes. -/
def companyOverrides : List (String × String) :=
  [("numEmployees", "num_employees"), ("logoUrl", "logo_url")]

/-- Semantics of one SET term applied to a company row, by physical
column name.  A column outside the table schema would make the store
reject the statement; it is modelled as a no-op. -/
def companySetCol (r : CompanyRow) (col : String) (v : JSVal) : CompanyRow :=
  if col == "name" then { r with name := v }
  else if col == "description" then { r with description := v }
  else if col == "num_employees" then { r with num_employees := v }
  else if col == "logo_url" then { r with logo_url := v }
  else r

def applyCompanySets (r : CompanyRow) (sets : List (String × JSVal)) : CompanyRow :=
  sets.foldl (fun r p => companySetCol r p.1 p.2) r

/-- Semantics of one SET term applied to a job row. -/
def jobSetCol (r : JobRow) (col : String) (v : JSVal) : JobRow :=
  if col == "title" then { r with title := v }
  else if col == "salary" then { r with salary := v }
  else if col == "equity" then { r with equity := v }
  else r

def applyJobSets (r : JobRow) (sets : List (String × JSVal)) : JobRow :=
  sets.foldl (fun r p => jobSetCol r p.1 p.2) r

/-- The UPDATE statement text built by Job.update, parameterised by the
SET fragment and the positional index used for the key in the WHERE
clause. -/
def jobUpdateQuery (setCols : String) (idx : Nat) : String :=
  "UPDATE jobs \n                      SET " ++ setCols ++
    " \n                      WHERE id = $" ++ toString idx ++
    " \n                      RETURNING id, title, salary, equity, company_handle"

/-- The UPDATE statement text built by Company.update. -/
def companyUpdateQuery (setCols : String) (idx : Nat) : String :=
  "UPDATE companies \n                      SET " ++ setCols ++
    " \n                      WHERE handle = $" ++ toString idx ++
    " \n                      RETURNING handle, \n                                name, \n                                description, \n                                num_employees AS \"numEmployees\", \n                                logo_url AS \"logoUrl\""

/-- The statement Job.update issues: the builder output composed with
the key appended after the value sequence, its positional index being
values.length + 1. -/
def jobUpdateStmt (idv : JSVal) (data : List (String × JSVal)) :
    Except RepoError (String × List JSVal) :=
  match sqlForPartialUpdate data jobOverrides with
  | .error e => .error e
  | .ok sc => .ok (jobUpdateQuery sc.setCols (sc.values.length + 1), sc.values ++ [idv])

/-- The statement Company.update issues. -/
def companyUpdateStmt (handle : String) (data : List (String × JSVal)) :
    Except RepoError (String × List JSVal) :=
  match sqlForPartialUpdate data companyOverrides with
  | .error e => .error e
  | .ok sc =>
    .ok (companyUpdateQuery sc.setCols (sc.values.length + 1), sc.values ++ [JSVal.str handle])

/-- Job.update: builder precondition first, then the UPDATE applied to
every row matching the key; NotFoundError when zero rows are affected
(the message of the source really says No company). -/
def jobUpdate (db : DB) (idv : JSVal) (data : List (String × JSVal)) :
    Except RepoError (DB × JobRow) :=
  match sqlForPartialUpdate data jobOverrides with
  | .error e => .error e
  | .ok _ =>
    let sets := data.map (fun kv => (mapField kv.1 jobOverrides, kv.2))
    match db.jobs.filter (fun j => idMatches idv j.id) with
    | [] => .error (.notFound ("No company: " ++ jsToString idv))
    | a :: _ =>
      .ok ({ db with jobs := db.jobs.map (fun j =>
               if idMatches idv j.id then applyJobSets j sets else j) },
           applyJobSets a sets)

/-- Company.update: builder precondition first, then the UPDATE applied
to every row matching the handle; NotFoundError when zero rows are
affected. -/
def companyUpdate (db : DB) (handle : String) (data : List (String × JSVal)) :
    Except RepoError (DB × CompanyRow) :=
  match sqlForPartialUpdate data companyOverrides with
  | .error e => .error e
  | .ok _ =>
    let sets := data.map (fun kv => (mapField kv.1 companyOverrides, kv.2))
    match db.companies.filter (fun r => r.handle == handle) with
    | [] => .error (.notFound ("No company: " ++ handle))
    | a :: _ =>
      .ok ({ db with companies := db.companies.map (fun r =>
               if r.handle == handle then applyCompanySets r sets else r) },
           applyCompanySets a sets)

/-! ## Concrete stores used by counterexamples and witnesses -/

def emptyDb : DB := ⟨[], [], 1⟩

/-- The c1 company row of the shared test fixtures. -/
def c1Row : CompanyRow :=
  ⟨"c1", .str "C1", .str "Desc1", .num 1, .str "http://c1.img"⟩

/-- A store holding company c1 and one job owned by it. -/
def dbOne : DB := ⟨[c1Row], [⟨1, .str "new", .num 123, .num 1, "c1"⟩], 2⟩

/-! ## Spec-side mirror of the filter traversal

The design notes of the spec describe the filter logic as a
data-described table of items interpreted by one shared traversal.
The mirror below realises that description: an item is a condition
fragment with either an attached parameter value (the fragment is
completed with the next positional index) or no parameter (the
fragment is literal).  It is used to state the amended form of the
structural claim about the builders. -/

/-- Shared traversal: number the parameter-bearing items left to right
starting after the n-th parameter, and collect conditions and values. -/
def numbered (n : Nat) : List (String × Option JSVal) → List String × List JSVal
  | [] => ([], [])
  | (pre, some v) :: rest =>
    let t := numbered (n + 1) rest
    ((pre ++ toString (n + 1)) :: t.1, v :: t.2)
  | (pre, none) :: rest =>
    let t := numbered n rest
    (pre :: t.1, t.2)

/-- Item table of the part_001 Job.findAll: one item per recognized
criterion whose value is truthy (the equity flag in addition requires
strict equality with the string literal true), in the fixed entity
order. -/
def itemsV1 (qp : JobQuery) : List (String × Option JSVal) :=
  (if truthy qp.title then
     [("title ILIKE $", some (JSVal.str ("%" ++ jsToString qp.title ++ "%")))]
   else []) ++
  (if truthy qp.minSalary then [("salary >= $", some qp.minSalary)] else []) ++
  (if truthy qp.equity && (qp.equity == JSVal.str "true") then
     [("equity > 0", none)]
   else [])

/-- Item table of the part_000 Job.findAll: as itemsV1 for title and
minSalary; the hasEquity flag contributes equity > 0 for the string
true, equity = 0 for the string false, nothing for any other truthy
value, and equity = 0 when it is falsy (in particular absent). -/
def itemsV0 (qp : JobQuery) : List (String × Option JSVal) :=
  (if truthy qp.title then
     [("title ILIKE $", some (JSVal.str ("%" ++ jsToString qp.title ++ "%")))]
   else []) ++
  (if truthy qp.minSalary then [("salary >= $", some qp.minSalary)] else []) ++
  (if truthy qp.hasEquity then
     if qp.hasEquity == JSVal.str "true" then [("equity > 0", none)]
     else if qp.hasEquity == JSVal.str "false" then [("equity = 0", none)]
     else []
   else [("equity = 0", none)])

/-- Item table of Company.findAll. -/
def itemsCo (qp : CompanyQuery) : List (String × Option JSVal) :=
  (if truthy qp.nameLike then
     [("name ILIKE $", some (JSVal.str ("%" ++ jsToString qp.nameLike ++ "%")))]
   else []) ++
  (if truthy qp.minEmployees then [("num_employees >= $", some qp.minEmployees)] else []) ++
  (if truthy qp.maxEmployees then [("num_employees <= $", some qp.maxEmployees)] else [])

/-! ## Helper lemmas shared by several claim theorems -/

theorem jobCVv1_eq_numbered (qp : JobQuery) : jobCVv1 qp = numbered 0 (itemsV1 qp) := by
  unfold jobCVv1 itemsV1
  cases h1 : truthy qp.title <;>
    cases h2 : truthy qp.minSalary <;>
      cases h3 : truthy qp.equity && (qp.equity == JSVal.str "true") <;>
        simp [pushParam, pushLit, numbered]

theorem jobCVv0_eq_numbered (qp : JobQuery) : jobCVv0 qp = numbered 0 (itemsV0 qp) := by
  unfold jobCVv0 itemsV0
  cases h1 : truthy qp.title <;>
    cases h2 : truthy qp.minSalary <;>
      cases h3 : truthy qp.hasEquity <;>
        cases h4 : qp.hasEquity == JSVal.str "true" <;>
          cases h5 : qp.hasEquity == JSVal.str "false" <;>
            simp [pushParam, pushLit, numbered]

theorem companyCV_eq_numbered (qp : CompanyQuery) : companyCV qp = numbered 0 (itemsCo qp) := by
  unfold companyCV itemsCo
  cases h1 : truthy qp.nameLike <;>
    cases h2 : truthy qp.minEmployees <;>
      cases h3 : truthy qp.maxEmployees <;>
        simp [pushParam, pushLit, numbered]

theorem v1_contains_gt (qp : JobQuery) :
    ((jobFindAllV1 qp).conds.contains "equity > 0") =
      (truthy qp.equity && (qp.equity == JSVal.str "true")) := by
  unfold jobFindAllV1 jobCVv1
  cases h1 : truthy qp.title <;> cases h2 : truthy qp.minSalary <;>
    cases h3 : truthy qp.equity && (qp.equity == JSVal.str "true") <;>
      simp [pushParam, pushLit] <;> decide

theorem v1_contains_eq0 (qp : JobQuery) :
    ((jobFindAllV1 qp).conds.contains "equity = 0") = false := by
  unfold jobFindAllV1 jobCVv1
  cases h1 : truthy qp.title <;> cases h2 : truthy qp.minSalary <;>
    cases h3 : truthy qp.equity && (qp.equity == JSVal.str "true") <;>
      simp [pushParam, pushLit] <;> decide

theorem v0_contains_gt (qp : JobQuery) :
    ((jobFindAllV0 qp).conds.contains "equity > 0") =
      (truthy qp.hasEquity && (qp.hasEquity == JSVal.str "true")) := by
  unfold jobFindAllV0 jobCVv0
  cases h1 : truthy qp.title <;> cases h2 : truthy qp.minSalary <;>
    cases h3 : truthy qp.hasEquity <;>
      cases h4 : qp.hasEquity == JSVal.str "true" <;>
        cases h5 : qp.hasEquity == JSVal.str "false" <;>
          simp [pushParam, pushLit] <;> decide

theorem v0_contains_eq0 (qp : JobQuery) :
    ((jobFindAllV0 qp).conds.contains "equity = 0") =
      (if truthy qp.hasEquity then (qp.hasEquity == JSVal.str "false") else true) := by
  unfold jobFindAllV0 jobCVv0
  cases h1 : truthy qp.title <;> cases h2 : truthy qp.minSalary <;>
    cases h3 : truthy qp.hasEquity <;>
      cases h4 : qp.hasEquity == JSVal.str "true" <;>
        cases h5 : qp.hasEquity == JSVal.str "false" <;>
          simp_all [pushParam, pushLit] <;> decide

/-! ## Claim theorems -/

/-- C1, counterexample: the equity tri-state policy fails on the code.
In the part_001 Job.findAll, the false-flag (equity criterion equal to
the string false) yields no condition at all, although the claim
requires the condition equity = 0; and in the part_000 Job.findAll, an
absent equity criterion yields the condition equity = 0, although the
claim requires no equity condition at all. -/
theorem c1_counterexample :
    (jobFindAllV1 { equity := JSVal.str "false" }).conds = [] ∧
    hasSub (jobFindAllV1 { equity := JSVal.str "false" }).query "equity = 0" = false ∧
    hasSub (jobFindAllV1 { equity := JSVal.str "false" }).query "WHERE" = false ∧
    (jobFindAllV0 {}).conds = ["equity = 0"] ∧
    hasSub (jobFindAllV0 {}).query "equity = 0" = true := by
  refine ⟨rfl, by decide, by decide, rfl, by decide⟩

/-- C1 (amended): for every Job search criteria mapping, the part_001
Job.findAll emits equity > 0 when the equity criterion is the string
true-flag and emits no equity condition when it is the string
false-flag or absent; the part_000 Job.findAll (criterion hasEquity)
emits equity > 0 for the string true-flag, equity = 0 for the string
false-flag, and also equity = 0 when the criterion is absent. -/
theorem c1_equity_policy (t s x : JSVal) :
    ((jobFindAllV1 { title := t, minSalary := s, equity := .str "true", hasEquity := x }).conds.contains
        "equity > 0") = true ∧
    ((jobFindAllV1 { title := t, minSalary := s, equity := .str "true", hasEquity := x }).conds.contains
        "equity = 0") = false ∧
    ((jobFindAllV1 { title := t, minSalary := s, equity := .str "false", hasEquity := x }).conds.contains
        "equity > 0") = false ∧
    ((jobFindAllV1 { title := t, minSalary := s, equity := .str "false", hasEquity := x }).conds.contains
        "equity = 0") = false ∧
    ((jobFindAllV1 { title := t, minSalary := s, equity := .undef, hasEquity := x }).conds.contains
        "equity > 0") = false ∧
    ((jobFindAllV1 { title := t, minSalary := s, equity := .undef, hasEquity := x }).conds.contains
        "equity = 0") = false ∧
    ((jobFindAllV0 { title := t, minSalary := s, equity := x, hasEquity := .str "true" }).conds.contains
        "equity > 0") = true ∧
    ((jobFindAllV0 { title := t, minSalary := s, equity := x, hasEquity := .str "true" }).conds.contains
        "equity = 0") = false ∧
    ((jobFindAllV0 { title := t, minSalary := s, equity := x, hasEquity := .str "false" }).conds.contains
        "equity = 0") = true ∧
    ((jobFindAllV0 { title := t, minSalary := s, equity := x, hasEquity := .str "false" }).conds.contains
        "equity > 0") = false ∧
    ((jobFindAllV0 { title := t, minSalary := s, equity := x, hasEquity := .undef }).conds.contains
        "equity = 0") = true ∧
    ((jobFindAllV0 { title := t, minSalary := s, equity := x, hasEquity := .undef }).conds.contains
        "equity > 0") = false := by
  refine ⟨by rw [v1_contains_gt]; simp [truthy], by rw [v1_contains_eq0],
    by rw [v1_contains_gt]; simp [truthy], by rw [v1_contains_eq0],
    by rw [v1_contains_gt]; simp [truthy], by rw [v1_contains_eq0],
    by rw [v0_contains_gt]; simp [truthy], by rw [v0_contains_eq0]; simp [truthy],
    by rw [v0_contains_eq0]; simp [truthy], by rw [v0_contains_gt]; simp [truthy],
    by rw [v0_contains_eq0]; simp [truthy], by rw [v0_contains_gt]; simp [truthy]⟩

/-- C3, counterexample: with minEmployees = 10 and maxEmployees = 0,
both range criteria are present in the mapping and min exceeds max, yet
Company.findAll does not fail: maxEmployees = 0 is falsy, so the range
pre-check is skipped, a statement is built, and the store is
queried. -/
theorem c3_counterexample :
    (companyFindAll { minEmployees := JSVal.num 10, maxEmployees := JSVal.num 0 }).isOk = true ∧
    (companyFindAllStmts { minEmployees := JSVal.num 10, maxEmployees := JSVal.num 0 }).length = 1 := by
  refine ⟨by decide, by decide⟩

/-- C3 (amended): whenever both employee bounds are truthy (so present
with a non-zero, non-empty value) and both parse to integers with
minEmployees greater than or equal to maxEmployees, Company.findAll
fails with the InvalidRangeError before building any clause, and no
statement is issued to the store on that path. -/
theorem c3_range_check (qp : CompanyQuery) (a b : Int)
    (hmin : truthy qp.minEmployees = true) (hmax : truthy qp.maxEmployees = true)
    (hpa : parseIntV qp.minEmployees = some a) (hpb : parseIntV qp.maxEmployees = some b)
    (hab : a ≥ b) :
    companyFindAll qp = .error .invalidRange ∧ companyFindAllStmts qp = [] := by
  have hg : rangeGuard qp = true := by
    simp [rangeGuard, hmin, hmax, hpa, hpb, hab]
  exact ⟨by simp [companyFindAll, hg], by simp [companyFindAllStmts, companyFindAll, hg]⟩

/-- Witness for c3_range_check at minEmployees = 10, maxEmployees = 5. -/
theorem c3_range_check_witness :
    truthy (JSVal.num 10) = true ∧ truthy (JSVal.num 5) = true ∧
    parseIntV (JSVal.num 10) = some 10 ∧ parseIntV (JSVal.num 5) = some 5 ∧
    (10 : Int) ≥ 5 ∧
    companyFindAll { minEmployees := JSVal.num 10, maxEmployees := JSVal.num 5 } =
      .error .invalidRange ∧
    companyFindAllStmts { minEmployees := JSVal.num 10, maxEmployees := JSVal.num 5 } = [] :=
  ⟨by decide, by decide, by decide, by decide, by decide,
   (c3_range_check { minEmployees := JSVal.num 10, maxEmployees := JSVal.num 5 } 10 5
     (by decide) (by decide) (by decide) (by decide) (by decide)).1,
   (c3_range_check { minEmployees := JSVal.num 10, maxEmployees := JSVal.num 5 } 10 5
     (by decide) (by decide) (by decide) (by decide) (by decide)).2⟩

/-- C4: for every override table and store, the partial-update builder
fails with the InvalidUpdateError on an empty field mapping, and so do
Job.update and Company.update, which delegate the precondition to it
before issuing any statement. -/
theorem c4_empty_update_fails (ov : List (String × String)) (db : DB)
    (idv : JSVal) (h : String) :
    sqlForPartialUpdate [] ov = .error .invalidUpdate ∧
    jobUpdate db idv [] = .error .invalidUpdate ∧
    companyUpdate db h [] = .error .invalidUpdate :=
  ⟨rfl, rfl, rfl⟩

/-- C5, evaluation at the failing input: on a store that already holds
the identical tuple, the part_000 Job.create inserts a second identical
row and succeeds, while the part_001 Job.create fails with the
duplicate error and leaves the store untouched, and Company.create
de-duplicates by handle alone (an existing handle is rejected even with
fresh attribute values, while a fresh handle with a duplicated name is
accepted). -/
theorem c5_create_divergence :
    (jobCreateV0 dbOne (.str "new") (.num 123) (.num 1) "c1").2 =
      .ok ⟨2, .str "new", .num 123, .num 1, "c1"⟩ ∧
    (jobCreateV0 dbOne (.str "new") (.num 123) (.num 1) "c1").1.jobs.length = 2 ∧
    (jobCreateV1 dbOne (.str "new") (.num 123) (.num 1) "c1").2 =
      .error (.duplicate "Duplicate job posting for this company.") ∧
    (jobCreateV1 dbOne (.str "new") (.num 123) (.num 1) "c1").1 = dbOne ∧
    (companyCreate dbOne "c1" (.str "Other") (.str "Other desc") .null .null).2 =
      .error (.duplicate "Duplicate company: c1") ∧
    (companyCreate dbOne "c1" (.str "Other") (.str "Other desc") .null .null).1 = dbOne ∧
    (companyCreate dbOne "c2" (.str "C1") (.str "Desc1") (.num 1) .null).2.isOk = true := by
  refine ⟨rfl, by decide, rfl, by decide, rfl, by decide, by decide⟩

/-- C2, evaluation at the failing input: the part_000 Job.get performs
no join and, on a key matching zero rows, raises the ReferenceError of
the undeclared identifier handle instead of NotFoundError; on a key
that matches, it returns the flat row with no nested collection.  By
contrast Company.get and the part_001 Job.get fold the joined rows into
one owner object with the nested collection and fail with NotFoundError
on zero rows, as the claim states. -/
theorem c2_get_divergence :
    jobGetV0 emptyDb (JSVal.num 0) = .error (.referenceError "handle") ∧
    jobGetV0 dbOne (JSVal.num 1) = .ok ⟨1, .str "new", .num 123, .num 1, "c1"⟩ ∧
    companyGet dbOne "c1" =
      .ok { handle := "c1", name := .str "C1", description := .str "Desc1",
            numEmployees := .num 1, logoUrl := .str "http://c1.img",
            jobs := [⟨1, .str "new", .num 123, .num 1, "c1"⟩] } ∧
    jobGetV1 dbOne (JSVal.num 1) =
      .ok { id := 1, title := .str "new", salary := .num 123, equity := .num 1,
            companies := [⟨"c1", .str "C1", .str "Desc1", .num 1, .str "http://c1.img"⟩] } ∧
    companyGet emptyDb "nope" = .error (.notFound "No company: nope") ∧
    jobGetV1 emptyDb (JSVal.num 0) = .error (.notFound "No job found: 0") := by
  refine ⟨rfl, rfl, rfl, rfl, rfl, rfl⟩

/-- C9: in the part_000 Job.get, whenever the id matches zero rows, the
not-found branch evaluates a template literal naming the undeclared
identifier handle, so the call raises a ReferenceError and never the
intended NotFoundError. -/
theorem c9_get_v0_reference_error (db : DB) (idv : JSVal)
    (h : db.jobs.filter (fun j => idMatches idv j.id) = []) :
    jobGetV0 db idv = .error (.referenceError "handle") ∧
    ∀ msg, jobGetV0 db idv ≠ .error (.notFound msg) := by
  unfold jobGetV0
  rw [h]
  exact ⟨rfl, by intro msg hmsg; simp at hmsg⟩

/-- Witness for c9_get_v0_reference_error on the empty store at id 0. -/
theorem c9_get_v0_reference_error_witness :
    (emptyDb.jobs.filter (fun j => idMatches (JSVal.num 0) j.id) = []) ∧
    (jobGetV0 emptyDb (JSVal.num 0) = .error (.referenceError "handle") ∧
     ∀ msg, jobGetV0 emptyDb (JSVal.num 0) ≠ .error (.notFound msg)) :=
  ⟨rfl, c9_get_v0_reference_error emptyDb (JSVal.num 0) rfl⟩

/-- C6, counterexample: a criteria mapping in which minSalary is
present (defined) with value 0 appends no condition and no parameter in
the part_001 Job.findAll, contrary to one condition and one parameter
per present key: presence is decided by truthiness, not
definedness. -/
theorem c6_counterexample :
    (jobFindAllV1 { minSalary := JSVal.num 0 }).conds = [] ∧
    (jobFindAllV1 { minSalary := JSVal.num 0 }).values = [] ∧
    hasSub (jobFindAllV1 { minSalary := JSVal.num 0 }).query "WHERE" = false := by
  refine ⟨rfl, rfl, by decide⟩

theorem whereOmittedV1 (qj : JobQuery) :
    ((jobFindAllV1 qj).conds.isEmpty && hasSub (jobFindAllV1 qj).query "WHERE") = false := by
  unfold jobFindAllV1 jobCVv1
  cases h1 : truthy qj.title <;> cases h2 : truthy qj.minSalary <;>
    cases h3 : truthy qj.equity && (qj.equity == JSVal.str "true") <;>
      simp [pushParam, pushLit, whereOf, joinAnd] <;> decide

theorem whereOmittedV0 (qj : JobQuery) :
    ((jobFindAllV0 qj).conds.isEmpty && hasSub (jobFindAllV0 qj).query "WHERE") = false := by
  unfold jobFindAllV0 jobCVv0
  cases h1 : truthy qj.title <;> cases h2 : truthy qj.minSalary <;>
    cases h3 : truthy qj.hasEquity <;>
      cases h4 : qj.hasEquity == JSVal.str "true" <;>
        cases h5 : qj.hasEquity == JSVal.str "false" <;>
          simp [pushParam, pushLit, whereOf, joinAnd] <;> decide

theorem whereOmittedCo (qc : CompanyQuery) :
    ((companyBuild qc).conds.isEmpty && hasSub (companyBuild qc).query "WHERE") = false := by
  unfold companyBuild companyCV
  cases h1 : truthy qc.nameLike <;> cases h2 : truthy qc.minEmployees <;>
    cases h3 : truthy qc.maxEmployees <;>
      simp [pushParam, pushLit, whereOf, joinAnd] <;> decide

/-- C6 (amended): each builder is extensionally the shared table-driven
traversal of its entity's fixed, ordered item list, where an item is
contributed by a recognized criterion exactly when its value is truthy
(not merely defined; the equity flags in addition compare against their
string literals, and the part_000 hasEquity item falls back to the
literal condition equity = 0 when the flag is falsy or absent); each
parameter-bearing item appends one condition and one positional
parameter, numbered consecutively from 1, each flag item appends a
literal condition and no parameter, the query joins the accumulated
conditions with AND after WHERE, and when no condition accumulates the
query contains no WHERE keyword at all. -/
theorem c6_builder_structure (qj : JobQuery) (qc : CompanyQuery) :
    jobCVv1 qj = numbered 0 (itemsV1 qj) ∧
    jobCVv0 qj = numbered 0 (itemsV0 qj) ∧
    companyCV qc = numbered 0 (itemsCo qc) ∧
    (jobFindAllV1 qj).query =
      jobBaseV1 ++ (if (numbered 0 (itemsV1 qj)).1.isEmpty then ""
        else " WHERE " ++ String.intercalate " AND " (numbered 0 (itemsV1 qj)).1) ++
      " ORDER BY title" ∧
    (jobFindAllV0 qj).query =
      jobBaseV0 ++ (if (numbered 0 (itemsV0 qj)).1.isEmpty then ""
        else " WHERE " ++ String.intercalate " AND " (numbered 0 (itemsV0 qj)).1) ++
      " ORDER BY title" ∧
    (companyBuild qc).query =
      companyBase ++ (if (numbered 0 (itemsCo qc)).1.isEmpty then ""
        else " WHERE " ++ String.intercalate " AND " (numbered 0 (itemsCo qc)).1) ++
      " ORDER BY name" ∧
    ((jobFindAllV1 qj).conds.isEmpty && hasSub (jobFindAllV1 qj).query "WHERE") = false ∧
    ((jobFindAllV0 qj).conds.isEmpty && hasSub (jobFindAllV0 qj).query "WHERE") = false ∧
    ((companyBuild qc).conds.isEmpty && hasSub (companyBuild qc).query "WHERE") = false :=
  ⟨jobCVv1_eq_numbered qj, jobCVv0_eq_numbered qj, companyCV_eq_numbered qc,
   by simp only [jobFindAllV1, jobCVv1_eq_numbered, whereOf, joinAnd],
   by simp only [jobFindAllV0, jobCVv0_eq_numbered, whereOf, joinAnd],
   by simp only [companyBuild, companyCV_eq_numbered, whereOf, joinAnd],
   whereOmittedV1 qj, whereOmittedV0 qj, whereOmittedCo qc⟩

/-- C7: for every key and non-empty field mapping, Job.update and
Company.update issue a statement whose parameter sequence is the
builder value sequence with the entity key appended as the final
positional parameter, whose WHERE clause references the key at
positional index len(values) + 1, and which fails with NotFoundError
when the key matches zero rows. -/
theorem c7_update_appends_key (data : List (String × JSVal)) (hd : data ≠ [])
    (idv : JSVal) (handle : String) (db : DB) :
    jobUpdateStmt idv data =
      .ok (jobUpdateQuery (mkSetClause data jobOverrides).setCols
             ((mkSetClause data jobOverrides).values.length + 1),
           (mkSetClause data jobOverrides).values ++ [idv]) ∧
    ((mkSetClause data jobOverrides).values ++ [idv]).length =
      (mkSetClause data jobOverrides).values.length + 1 ∧
    ((mkSetClause data jobOverrides).values ++ [idv]).getLast? = some idv ∧
    (db.jobs.filter (fun j => idMatches idv j.id) = [] →
      jobUpdate db idv data = .error (.notFound ("No company: " ++ jsToString idv))) ∧
    companyUpdateStmt handle data =
      .ok (companyUpdateQuery (mkSetClause data companyOverrides).setCols
             ((mkSetClause data companyOverrides).values.length + 1),
           (mkSetClause data companyOverrides).values ++ [JSVal.str handle]) ∧
    (db.companies.filter (fun r => r.handle == handle) = [] →
      companyUpdate db handle data = .error (.notFound ("No company: " ++ handle))) := by
  have hne : data.isEmpty = false := by
    cases data with
    | nil => exact absurd rfl hd
    | cons a t => rfl
  refine ⟨?_, by simp, ?_, ?_, ?_, ?_⟩
  · simp [jobUpdateStmt, sqlForPartialUpdate, hne]
  · simp [List.getLast?_concat]
  · intro hfil
    simp [jobUpdate, sqlForPartialUpdate, hne, hfil]
  · simp [companyUpdateStmt, sqlForPartialUpdate, hne]
  · intro hfil
    simp [companyUpdate, sqlForPartialUpdate, hne, hfil]

/-- Witness for c7_update_appends_key at a one-field mapping, key 7 for
Job and key c9x for Company, on the empty store. -/
theorem c7_update_appends_key_witness :
    (([("title", JSVal.str "x")] : List (String × JSVal)) ≠ []) ∧
    jobUpdateStmt (JSVal.num 7) [("title", JSVal.str "x")] =
      .ok (jobUpdateQuery (mkSetClause [("title", JSVal.str "x")] jobOverrides).setCols
             ((mkSetClause [("title", JSVal.str "x")] jobOverrides).values.length + 1),
           (mkSetClause [("title", JSVal.str "x")] jobOverrides).values ++ [JSVal.num 7]) ∧
    jobUpdate emptyDb (JSVal.num 7) [("title", JSVal.str "x")] =
      .error (.notFound ("No company: " ++ jsToString (JSVal.num 7))) ∧
    companyUpdate emptyDb "c9x" [("title", JSVal.str "x")] =
      .error (.notFound ("No company: " ++ "c9x")) :=
  ⟨by decide,
   (c7_update_appends_key [("title", JSVal.str "x")] (by decide) (JSVal.num 7) "c9x" emptyDb).1,
   (c7_update_appends_key [("title", JSVal.str "x")] (by decide) (JSVal.num 7) "c9x"
     emptyDb).2.2.2.1 rfl,
   (c7_update_appends_key [("title", JSVal.str "x")] (by decide) (JSVal.num 7) "c9x"
     emptyDb).2.2.2.2.2 rfl⟩

/-- C10: presence of a search criterion is decided by truthiness, not
definedness: a criterion whose value is 0 or the empty string
contributes no condition and no parameter, exactly as if it were
absent, on either entity; consequently the Company range pre-check is
skipped (no error is possible) whenever either employee bound is 0. -/
theorem c10_truthiness_presence (t s e he nm mn mx : JSVal) :
    jobFindAllV1 { title := t, minSalary := JSVal.num 0, equity := e, hasEquity := he } =
      jobFindAllV1 { title := t, minSalary := JSVal.undef, equity := e, hasEquity := he } ∧
    jobFindAllV1 { title := JSVal.str "", minSalary := s, equity := e, hasEquity := he } =
      jobFindAllV1 { title := JSVal.undef, minSalary := s, equity := e, hasEquity := he } ∧
    companyFindAll { nameLike := JSVal.str "", minEmployees := mn, maxEmployees := mx } =
      companyFindAll { nameLike := JSVal.undef, minEmployees := mn, maxEmployees := mx } ∧
    companyFindAll { nameLike := nm, minEmployees := JSVal.num 0, maxEmployees := mx } =
      companyFindAll { nameLike := nm, minEmployees := JSVal.undef, maxEmployees := mx } ∧
    companyFindAll { nameLike := nm, minEmployees := mn, maxEmployees := JSVal.num 0 } =
      companyFindAll { nameLike := nm, minEmployees := mn, maxEmployees := JSVal.undef } ∧
    (companyFindAll { nameLike := nm, minEmployees := JSVal.num 0, maxEmployees := mx }).isOk
      = true ∧
    (companyFindAll { nameLike := nm, minEmployees := mn, maxEmployees := JSVal.num 0 }).isOk
      = true := by
  have h1 : rangeGuard { nameLike := nm, minEmployees := mn, maxEmployees := JSVal.num 0 }
      = false := by
    simp [rangeGuard, truthy]
  have h2 : rangeGuard { nameLike := nm, minEmployees := mn, maxEmployees := JSVal.undef }
      = false := by
    simp [rangeGuard, truthy]
  refine ⟨rfl, rfl, rfl, rfl, ?_, rfl, ?_⟩
  · show companyFindAll _ = companyFindAll _
    unfold companyFindAll
    rw [h1, h2]
    rfl
  · show (companyFindAll _).isOk = true
    unfold companyFindAll
    rw [h1]
    rfl

/-! ## Frame effect of a single-field Company update -/

theorem applyCompanySets_num (r : CompanyRow) (v : JSVal) :
    applyCompanySets r [("num_employees", v)] = { r with num_employees := v } := rfl

theorem filter_map_num (l : List CompanyRow) (h : String) (v : JSVal) :
    (l.map (fun r => if r.handle == h then { r with num_employees := v } else r)).filter
        (fun r => r.handle == h) =
      (l.filter (fun r => r.handle == h)).map
        (fun r => { r with num_employees := v }) := by
  induction l with
  | nil => rfl
  | cons a t ih =>
    by_cases ha : a.handle = h
    · have hb : (a.handle == h) = true := by simp [ha]
      simp [List.filter_cons, hb, ha]
      simpa using ih
    · have hb : (a.handle == h) = false := by simp [ha]
      simp [List.filter_cons, hb, ha]
      simpa using ih

theorem pushJob_map (x : CompanyRow) (js : List JobRow) :
    (js.map (fun j => (x, some j))).filterMap pushJob =
      js.filterMap (fun j =>
        if j.id != 0 then
          some (⟨j.id, j.title, j.salary, j.equity, j.company_handle⟩ : ShapedJob)
        else none) := by
  induction js with
  | nil => rfl
  | cons j t ih =>
    by_cases hid : j.id = 0
    · simp [List.filterMap_cons, pushJob, hid]
      simpa using ih
    · simp [List.filterMap_cons, pushJob, hid]
      simpa using ih

/-- C8: on any store whose companies table has exactly one row with the
given handle, Company.update with a field mapping containing only
numEmployees succeeds, changing only the num_employees column of that
row (name, description, logo_url, every other row, and the jobs table
are untouched), and a subsequent Company.get on the same handle returns
exactly the previous result with only numEmployees replaced. -/
theorem c8_update_num_employees_only (db : DB) (h : String) (c : CompanyRow) (v : JSVal)
    (hc : db.companies.filter (fun r => r.handle == h) = [c]) :
    companyUpdate db h [("numEmployees", v)] =
      .ok ({ companies := db.companies.map
               (fun r => if r.handle == h then { r with num_employees := v } else r),
             jobs := db.jobs, nextId := db.nextId },
           { c with num_employees := v }) ∧
    companyGet { companies := db.companies.map
                   (fun r => if r.handle == h then { r with num_employees := v } else r),
                 jobs := db.jobs, nextId := db.nextId } h =
      (companyGet db h).map (fun d => { d with numEmployees := v }) := by
  constructor
  · show companyUpdate db h [("numEmployees", v)] = _
    unfold companyUpdate
    rw [show sqlForPartialUpdate [("numEmployees", v)] companyOverrides =
          .ok (mkSetClause [("numEmployees", v)] companyOverrides) from rfl]
    simp only [List.map_cons, List.map_nil]
    rw [show mapField "numEmployees" companyOverrides = "num_employees" from rfl]
    rw [hc]
    simp only [applyCompanySets_num]
  · have hc2 : (db.companies.map
          (fun r => if r.handle == h then { r with num_employees := v } else r)).filter
            (fun r => r.handle == h) = [{ c with num_employees := v }] := by
      rw [filter_map_num, hc]
      rfl
    unfold companyGet companyGetRows
    simp only []
    rw [hc2, hc]
    cases hj : db.jobs.filter (fun j => j.company_handle == c.handle) with
    | nil =>
      simp [hj, pushJob, Except.map]
    | cons j js =>
      simp [hj, pushJob, Except.map]
      exact (pushJob_map _ (j :: js)).trans (pushJob_map _ (j :: js)).symm

/-- Witness for c8_update_num_employees_only on the fixture store at
handle c1 with numEmployees set to 50. -/
theorem c8_update_num_employees_only_witness :
    (dbOne.companies.filter (fun r => r.handle == "c1") = [c1Row]) ∧
    (companyUpdate dbOne "c1" [("numEmployees", JSVal.num 50)] =
       .ok ({ companies := dbOne.companies.map
                (fun r => if r.handle == "c1" then { r with num_employees := JSVal.num 50 }
                          else r),
              jobs := dbOne.jobs, nextId := dbOne.nextId },
            { c1Row with num_employees := JSVal.num 50 }) ∧
     companyGet { companies := dbOne.companies.map
                    (fun r => if r.handle == "c1" then { r with num_employees := JSVal.num 50 }
                              else r),
                  jobs := dbOne.jobs, nextId := dbOne.nextId } "c1" =
       (companyGet dbOne "c1").map (fun d => { d with numEmployees := JSVal.num 50 })) :=
  ⟨rfl, c8_update_num_employees_only dbOne "c1" c1Row (JSVal.num 50) rfl⟩

end Jobly
